import Mathlib

/-!
Verification of the check-in tracking backend (`new_backend.py`).

This file gives a shallow embedding, in Lean 4, of the data model and the
operations of the backend that the specification talks about: the
week-start resolution used by the report endpoints, the daily check-in
upsert, the client serial generator, the weekly-report compiler (both the
therapist Excel report and the client's own report), and the
therapist-side client lookup used for authorization.  Dates are modelled
as proleptic-Gregorian ordinal day numbers (day 1 = 0001-01-01, the same
convention as Python's `date.toordinal`), times as plain naturals, and
the relational store as lists of records.
-/

namespace SWB

/-! ## Calendar arithmetic

`toOrdinal` is the proleptic Gregorian ordinal of a calendar date,
matching Python's `date(y, m, d).toordinal()` for `y ≥ 1`:
ordinal 1 is 0001-01-01.  `pyWeekday` matches Python's
`date.weekday()` (Monday = 0, Sunday = 6). -/

/-- Gregorian leap-year test. -/
def isLeap (y : Int) : Bool :=
  y % 4 == 0 && (y % 100 != 0 || y % 400 == 0)

/-- Number of days strictly before month `m` (1 = January) in a year,
given whether the year is a leap year. -/
def daysBeforeMonth (leap : Bool) (m : Int) : Int :=
  let k : Int := if leap then 1 else 0
  if m = 1 then 0
  else if m = 2 then 31
  else if m = 3 then 59 + k
  else if m = 4 then 90 + k
  else if m = 5 then 120 + k
  else if m = 6 then 151 + k
  else if m = 7 then 181 + k
  else if m = 8 then 212 + k
  else if m = 9 then 243 + k
  else if m = 10 then 273 + k
  else if m = 11 then 304 + k
  else 334 + k

/-- Proleptic Gregorian ordinal of the date `y`-`m`-`d`
(Python `date.toordinal`; 0001-01-01 is day 1). -/
def toOrdinal (y m d : Int) : Int :=
  365 * (y - 1) + (y - 1) / 4 - (y - 1) / 100 + (y - 1) / 400
    + daysBeforeMonth (isLeap y) m + d

/-- Python `date.weekday()` on an ordinal: Monday = 0 … Sunday = 6.
(0001-01-01, ordinal 1, was a Monday.) -/
def pyWeekday (ord : Int) : Int :=
  (ord + 6) % 7

/-! ## Week-start resolution

Translation of the week computation that appears verbatim in
`generate_report`, `client_generate_report` and `email_therapy_report`:

    jan1 = datetime(year, 1, 1)
    days_to_monday = (7 - jan1.weekday()) % 7
    if days_to_monday == 0:
        days_to_monday = 7
    first_monday = jan1 + timedelta(days=days_to_monday - 7)
    week_start = first_monday + timedelta(weeks=week_num - 1)
-/

/-- Ordinal of the resolved week start for `<year>-W<week_num>`. -/
def weekStartOrd (year week_num : Int) : Int :=
  let jan1 := toOrdinal year 1 1
  let days_to_monday := (7 - pyWeekday jan1) % 7
  let days_to_monday := if days_to_monday = 0 then 7 else days_to_monday
  let first_monday := jan1 + (days_to_monday - 7)
  first_monday + 7 * (week_num - 1)

/-- Python `week.split('-W')` on the character list: splits at each
non-overlapping occurrence of the two-character separator `-W`, left to
right (the accumulator holds the current piece reversed). -/
def splitOnDashW : List Char → List Char → List (List Char)
  | '-' :: 'W' :: rest, acc => acc.reverse :: splitOnDashW rest []
  | c :: rest, acc => splitOnDashW rest (c :: acc)
  | [], acc => [acc.reverse]

/-- Digit accumulation of Python `int(...)`: all characters must be
digits and there must be at least one (checked by the callers). -/
def parseDigitsAux : List Char → Nat → Option Nat
  | [], acc => some acc
  | c :: rest, acc =>
    if c.isDigit then parseDigitsAux rest (acc * 10 + (c.toNat - 48))
    else none

/-- Python `int(...)` on a character list: an optional sign followed by
at least one digit (`int`'s tolerance of surrounding whitespace is not
modelled; no caller exercises it). -/
def pyInt : List Char → Option Int
  | [] => none
  | '-' :: rest =>
    if rest.isEmpty then none
    else (parseDigitsAux rest 0).map (fun n => -(n : Int))
  | '+' :: rest =>
    if rest.isEmpty then none
    else (parseDigitsAux rest 0).map (fun n => (n : Int))
  | cs => (parseDigitsAux cs 0).map (fun n => (n : Int))

/-- Translation of the week-designator parse
`year, week_num = week.split('-W'); int(year); int(week_num)`:
succeeds only when splitting on `-W` yields exactly two integer parts
(any failure raises `ValueError` in the source, i.e. `none` here). -/
def parseWeek (week : String) : Option (Int × Int) :=
  match splitOnDashW week.data [] with
  | [y, w] =>
    match pyInt y, pyInt w with
    | some year, some week_num => some (year, week_num)
    | _, _ => none
  | _ => none

/-! ## Data model

List-based embedding of the SQLAlchemy models that the claims touch.
The database-generated `id` and `created_at` columns of `DailyCheckin`
are omitted: nothing in the embedded operations reads them. -/

/-- Row of the `daily_checkins` table (unique on `(client_id, checkin_date)`). -/
structure DailyCheckin where
  client_id : Nat
  checkin_date : Int
  checkin_time : Nat
  emotional_value : Option Int
  emotional_notes : Option String
  medication_value : Option Int
  medication_notes : Option String
  activity_value : Option Int
  activity_notes : Option String
deriving DecidableEq, Repr

/-- The JSON payload of a check-in submission: `data.get(field)` yields
`none` for an omitted field.  `date` is the parsed `data.get('date')`,
`none` when the field is absent (the handler then uses today). -/
structure CheckinData where
  date : Option Int
  emotional_value : Option Int
  emotional_notes : Option String
  medication_value : Option Int
  medication_notes : Option String
  activity_value : Option Int
  activity_notes : Option String
deriving DecidableEq, Repr

/-- The `(client_id, checkin_date)` natural key used by
`client.checkins.filter_by(checkin_date=...)` for a given client. -/
def checkinKey (cid : Nat) (d : Int) (c : DailyCheckin) : Bool :=
  c.client_id == cid && c.checkin_date == d

/-- Replace the first element satisfying `p` (the row returned by
`.first()`, mutated in place by the ORM). -/
def updateFirst (p : α → Bool) (f : α → α) : List α → List α
  | [] => []
  | x :: xs => if p x then f x :: xs else x :: updateFirst p f xs

/-- Translation of the `DailyCheckin` create-or-update portion of
`submit_checkin`: resolve the date (today when absent), look for an
existing row for `(client, date)`; if found overwrite its time and all
six value/notes fields with the submitted values, else insert a new row
with those fields.  (`today` is `date.today()`, `now` is
`datetime.now().time()`.) -/
def submit_checkin_daily (store : List DailyCheckin) (cid : Nat)
    (today : Int) (now : Nat) (data : CheckinData) : List DailyCheckin :=
  let checkin_date := data.date.getD today
  match store.find? (checkinKey cid checkin_date) with
  | some _ =>
    updateFirst (checkinKey cid checkin_date)
      (fun c =>
        { c with
          checkin_time := now
          emotional_value := data.emotional_value
          emotional_notes := data.emotional_notes
          medication_value := data.medication_value
          medication_notes := data.medication_notes
          activity_value := data.activity_value
          activity_notes := data.activity_notes })
      store
  | none =>
    store ++
      [{ client_id := cid
         checkin_date := checkin_date
         checkin_time := now
         emotional_value := data.emotional_value
         emotional_notes := data.emotional_notes
         medication_value := data.medication_value
         medication_notes := data.medication_notes
         activity_value := data.activity_value
         activity_notes := data.activity_notes }]

/-- The fully-determined row a submission stores for key `(cid, d)`. -/
def submittedRow (cid : Nat) (d : Int) (now : Nat) (data : CheckinData) :
    DailyCheckin :=
  { client_id := cid
    checkin_date := d
    checkin_time := now
    emotional_value := data.emotional_value
    emotional_notes := data.emotional_notes
    medication_value := data.medication_value
    medication_notes := data.medication_notes
    activity_value := data.activity_value
    activity_notes := data.activity_notes }

/-- Row of the `clients` table. -/
structure Client where
  id : Nat
  user_id : Option Nat
  client_serial : String
  therapist_id : Option Nat
  start_date : Int
  is_active : Bool
deriving DecidableEq, Repr

/-- Row of the `weekly_goals` table. -/
structure WeeklyGoal where
  id : Nat
  client_id : Nat
  therapist_id : Option Nat
  goal_text : String
  week_start : Int
  is_active : Bool
deriving DecidableEq, Repr

/-- Row of the `goal_completions` table (unique on `(goal_id, completion_date)`). -/
structure GoalCompletion where
  goal_id : Nat
  completion_date : Int
  completed : Bool
deriving DecidableEq, Repr

/-- Row of the `therapist_notes` table.  The `created_at` datetime is
split into its calendar day (`created_day`, an ordinal) and the
time-of-day within it (`created_tick`): the report's
`between(week_start 00:00, week_end 23:59:59.999999)` window test on the
datetime is exactly a day-range test on `created_day`. -/
structure TherapistNote where
  id : Nat
  client_id : Nat
  therapist_id : Nat
  note_type : String
  content : String
  is_mission : Bool
  mission_completed : Bool
  created_day : Int
  created_tick : Nat
deriving DecidableEq, Repr

/-- Row of the `category_responses` table (unique on
`(client_id, category_id, response_date)`). -/
structure CategoryResponse where
  client_id : Nat
  category_id : Nat
  response_date : Int
  value : Int
deriving DecidableEq, Repr

/-- Row of the `client_tracking_plans` table. -/
structure ClientTrackingPlan where
  id : Nat
  client_id : Nat
  category_id : Nat
  is_active : Bool
deriving DecidableEq, Repr

/-- Row of the `tracking_categories` table. -/
structure TrackingCategory where
  id : Nat
  name : String
  description : Option String
deriving DecidableEq, Repr

/-- The relational store, one list per table the claims touch. -/
structure DB where
  clients : List Client
  checkins : List DailyCheckin
  goals : List WeeklyGoal
  goal_completions : List GoalCompletion
  notes : List TherapistNote
  tracking_plans : List ClientTrackingPlan
  categories : List TrackingCategory
  category_responses : List CategoryResponse
deriving Repr

/-! ## Client serial generator

Translation of `generate_client_serial`:

    while True:
        serial = 'C' + ''.join(random.choices(string.digits, k=8))
        if not Client.query.filter_by(client_serial=serial).first():
            return serial

The random draws are abstracted into a stream `digits : Nat → String`
giving the 8-character digit string drawn on each iteration.  The
unbounded `while True` is embedded with explicit fuel: the function
returns the first non-colliding serial reached within `fuel` iterations
starting at iteration `i`, and `none` when every one of those `fuel`
candidates collides (i.e. the source loop is still running after `fuel`
iterations). -/

/-- Serial-generation loop, fuelled. -/
def generate_client_serial (digits : Nat → String) (clients : List Client) :
    Nat → Nat → Option String
  | _, 0 => none
  | i, fuel + 1 =>
    let serial := "C" ++ digits i
    match clients.find? (fun c => c.client_serial == serial) with
    | some _ => generate_client_serial digits clients (i + 1) fuel
    | none => some serial

/-- A fresh client row as inserted by `create_client` right after serial
generation (only the serial matters to the generator's lookup). -/
def mkClient (serial : String) : Client :=
  { id := 0
    user_id := none
    client_serial := serial
    therapist_id := none
    start_date := 0
    is_active := true }

/-- Generating `n` clients in sequence: each generation runs against the
store extended with the previously inserted clients (`digitsSeq k` is
the draw stream of the `k`-th generation); `none` as soon as one
generation fails to terminate within its fuel. -/
def genSerials (digitsSeq : Nat → Nat → String) (fuel : Nat)
    (clients : List Client) : Nat → Option (List String)
  | 0 => some []
  | n + 1 =>
    match generate_client_serial (digitsSeq n) clients 0 fuel with
    | none => none
    | some s =>
      match genSerials digitsSeq fuel (mkClient s :: clients) n with
      | none => none
      | some rest => some (s :: rest)

/-- All-colliding draw stream for the unboundedness counterexample. -/
def digitsConst : Nat → String := fun _ => "00000000"

/-- A store already holding the serial `digitsConst` produces. -/
def clientC0 : Client := mkClient "C00000000"

/-- Draw streams for the distinctness witness: generation 0 draws
`00000000`, every later generation draws `11111111`. -/
def digitsSeqW : Nat → Nat → String :=
  fun k _ => if k = 0 then "00000000" else "11111111"

/-- The draw streams produce 8-character digit strings, as
`random.choices(string.digits, k=8)` does. -/
def digitsOk (digitsSeq : Nat → Nat → String) : Prop :=
  ∀ k j, (digitsSeq k j).length = 8 ∧ ∀ ch ∈ (digitsSeq k j).data, ch.isDigit

/-- Concrete first submission used to exercise the upsert. -/
def checkinDataA : CheckinData :=
  { date := some 5
    emotional_value := some 3
    emotional_notes := some "tired"
    medication_value := some 5
    medication_notes := none
    activity_value := some 2
    activity_notes := none }

/-- Concrete second submission with different field values. -/
def checkinDataB : CheckinData :=
  { date := some 5
    emotional_value := some 4
    emotional_notes := none
    medication_value := none
    medication_notes := none
    activity_value := some 5
    activity_notes := some "walk" }

/-- Concrete pre-existing check-in row for the replace witness. -/
def checkinRowOld : DailyCheckin :=
  { client_id := 1
    checkin_date := 5
    checkin_time := 9
    emotional_value := some 1
    emotional_notes := some "old"
    medication_value := some 3
    medication_notes := some "m"
    activity_value := some 1
    activity_notes := some "a" }

/-! ## Report compiler

Embedding of `create_weekly_report_excel` (the four-to-five-sheet
therapist workbook) and of the client's own single-sheet report built
inline in `client_generate_report`.  Cell styling (fonts, fills,
borders, column widths) and number formatting are presentation only and
not modelled; every queried row and computed statistic is. -/

/-- Insert into a sorted list (stable: an element is placed before the
later-listed elements it ties with). -/
def insertBy (le : α → α → Bool) (x : α) : List α → List α
  | [] => [x]
  | y :: ys => if le x y then x :: y :: ys else y :: insertBy le x ys

/-- Stable insertion sort, modelling the query-level `order_by`. -/
def sortBy (le : α → α → Bool) : List α → List α
  | [] => []
  | x :: xs => insertBy le x (sortBy le xs)

/-- Python truthiness of a nullable integer column, as used in
`if checkin.emotional_value:` — both `None` and `0` are falsy. -/
def truthyInt : Option Int → Option Int
  | some v => if v = 0 then none else some v
  | none => none

/-- The `days` list of the report loops. -/
def dayName (i : Nat) : String :=
  (["Monday", "Tuesday", "Wednesday", "Thursday", "Friday", "Saturday",
    "Sunday"]).getD i ""

/-- The medication cell text: the source writes a value only for the
four recognised codes and otherwise leaves the cell unset. -/
def medDisplay : Option Int → Option String
  | some 0 => some "N/A"
  | some 1 => some "No"
  | some 3 => some "Partial"
  | some 5 => some "Yes"
  | _ => none

/-- `client.checkins.filter(DailyCheckin.checkin_date.between(week_start,
week_end)).order_by(DailyCheckin.checkin_date).all()`. -/
def weekCheckins (db : DB) (cid : Nat) (ws we : Int) : List DailyCheckin :=
  sortBy (fun a b => decide (a.checkin_date ≤ b.checkin_date))
    (db.checkins.filter (fun c => c.client_id == cid &&
      decide (ws ≤ c.checkin_date) && decide (c.checkin_date ≤ we)))

/-- `next((c for c in checkins if c.checkin_date == current_date), None)`. -/
def findCheckinOn (cs : List DailyCheckin) (d : Int) : Option DailyCheckin :=
  cs.find? (fun c => c.checkin_date == d)

/-- One row of the seven-day check-in grid.  `time = none` renders the
italic "No check-in" cell; `present` is the completion marker column. -/
structure DayRow where
  date : Int
  day_name : String
  time : Option Nat
  emotional_value : Option Int
  emotional_notes : String
  medication : Option String
  medication_notes : String
  activity_value : Option Int
  activity_notes : String
  present : Bool
deriving DecidableEq, Repr

/-- The seven-day grid loop (`for i in range(7)`), shared by the
therapist sheet and the client sheet (the latter has no completion
marker column; `present` carries the same information as its
"No check-in" cell). -/
def dayRows (ws : Int) (cs : List DailyCheckin) : List DayRow :=
  (List.range 7).map (fun i =>
    let current_date := ws + Int.ofNat i
    match findCheckinOn cs current_date with
    | some checkin =>
      { date := current_date
        day_name := dayName i
        time := some checkin.checkin_time
        emotional_value := checkin.emotional_value
        emotional_notes := checkin.emotional_notes.getD ""
        medication := medDisplay checkin.medication_value
        medication_notes := checkin.medication_notes.getD ""
        activity_value := checkin.activity_value
        activity_notes := checkin.activity_notes.getD ""
        present := true }
    | none =>
      { date := current_date
        day_name := dayName i
        time := none
        emotional_value := none
        emotional_notes := ""
        medication := none
        medication_notes := ""
        activity_value := none
        activity_notes := ""
        present := false })

/-- `checkins_completed`, incremented once per day with a check-in. -/
def checkinsCompleted (ws : Int) (cs : List DailyCheckin) : Nat :=
  ((List.range 7).filterMap (fun i => findCheckinOn cs (ws + Int.ofNat i))).length

/-- `emotional_values`, collected day by day in the grid loop for days
whose check-in has a truthy emotional rating. -/
def emotionalValues (ws : Int) (cs : List DailyCheckin) : List Int :=
  (List.range 7).filterMap (fun i =>
    (findCheckinOn cs (ws + Int.ofNat i)).bind
      (fun c => truthyInt c.emotional_value))

/-- `activity_values`, same collection for the activity rating. -/
def activityValues (ws : Int) (cs : List DailyCheckin) : List Int :=
  (List.range 7).filterMap (fun i =>
    (findCheckinOn cs (ws + Int.ofNat i)).bind
      (fun c => truthyInt c.activity_value))

/-- `medication_values`: the grid loop appends the medication value only
in its 1 / 3 / 5 display branches. -/
def medValue135 : Option Int → Option Int
  | some 1 => some 1
  | some 3 => some 3
  | some 5 => some 5
  | _ => none

/-- `medication_values` collected by the grid loop. -/
def medicationValues (ws : Int) (cs : List DailyCheckin) : List Int :=
  (List.range 7).filterMap (fun i =>
    (findCheckinOn cs (ws + Int.ofNat i)).bind
      (fun c => medValue135 c.medication_value))

/-- `sum(values) / len(values)` over ℚ. -/
def meanOf (l : List Int) : ℚ :=
  (l.map (fun v : Int => (v : ℚ))).sum / l.length

/-- The completion bucket expression of the Weekly Summary sheet:
`'Excellent' if completion_rate >= 80 else 'Good' if completion_rate
>= 60 else 'Needs Improvement'`. -/
def completionRating (completion_rate : ℚ) : String :=
  if completion_rate ≥ 80 then "Excellent"
  else if completion_rate ≥ 60 then "Good"
  else "Needs Improvement"

/-- One row of the Weekly Summary sheet: metric name, the numeric value
shown, the percentage column, and the qualitative rating. -/
structure SummaryEntry where
  metric : String
  amount : ℚ
  percentage : ℚ
  rating : String
deriving DecidableEq, Repr

/-- The Check-in Completion row of the Weekly Summary sheet. -/
def completionEntry (ws : Int) (cs : List DailyCheckin) : SummaryEntry :=
  let checkins_completed := checkinsCompleted ws cs
  let completion_rate : ℚ := ((checkins_completed : ℚ) / 7) * 100
  { metric := "Check-in Completion"
    amount := (checkins_completed : ℚ)
    percentage := completion_rate
    rating := completionRating completion_rate }

/-- The Average Emotional Rating row, appended only
`if emotional_values:`. -/
def emotionalEntries (ws : Int) (cs : List DailyCheckin) :
    List SummaryEntry :=
  if (emotionalValues ws cs).isEmpty then []
  else
    let avg := meanOf (emotionalValues ws cs)
    [{ metric := "Average Emotional Rating"
       amount := avg
       percentage := avg / 5 * 100
       rating := if avg ≥ 4 then "Excellent"
         else if avg ≥ 3 then "Good" else "Needs Support" }]

/-- The Medication Adherence row, appended only `if medication_values:`. -/
def medicationEntries (ws : Int) (cs : List DailyCheckin) :
    List SummaryEntry :=
  if (medicationValues ws cs).isEmpty then []
  else
    let med_adherent :=
      ((medicationValues ws cs).filter (fun v => v == 5)).length
    let adherence_rate : ℚ :=
      ((med_adherent : ℚ) / (medicationValues ws cs).length) * 100
    [{ metric := "Medication Adherence"
       amount := (med_adherent : ℚ)
       percentage := adherence_rate
       rating := if adherence_rate ≥ 90 then "Excellent"
         else if adherence_rate ≥ 70 then "Good"
         else "Needs Improvement" }]

/-- The Average Activity Level row, appended only `if activity_values:`. -/
def activityEntries (ws : Int) (cs : List DailyCheckin) :
    List SummaryEntry :=
  if (activityValues ws cs).isEmpty then []
  else
    let avg := meanOf (activityValues ws cs)
    [{ metric := "Average Activity Level"
       amount := avg
       percentage := avg / 5 * 100
       rating := if avg ≥ 4 then "Excellent"
         else if avg ≥ 3 then "Good" else "Needs Encouragement" }]

/-- The `summary_data` list of the Weekly Summary sheet: the completion
row always; the three average rows only when there is at least one
check-in and the corresponding collected value list is nonempty. -/
def summaryData (ws : Int) (cs : List DailyCheckin) : List SummaryEntry :=
  if checkinsCompleted ws cs > 0 then
    [completionEntry ws cs] ++ emotionalEntries ws cs ++
      medicationEntries ws cs ++ activityEntries ws cs
  else [completionEntry ws cs]

/-- Stated from the spec's words, for comparison with the code: the mean
of the emotional field over only the check-ins where it is non-null
(divisor = count of non-null values). -/
def specMeanEmotional (cs : List DailyCheckin) : ℚ :=
  let vals := cs.filterMap (fun c => c.emotional_value)
  (vals.map (fun v : Int => (v : ℚ))).sum / vals.length

/-- Stated from the spec's words: the mean of the activity field over
only the check-ins where it is non-null. -/
def specMeanActivity (cs : List DailyCheckin) : ℚ :=
  let vals := cs.filterMap (fun c => c.activity_value)
  (vals.map (fun v : Int => (v : ℚ))).sum / vals.length

/-- One row of the Weekly Goals sheet: goal text, the seven day cells
(`some true` = check mark, `some false` = cross, `none` = dash), and the
completed-day count shown in the completion-rate cell. -/
structure GoalRow where
  goal_text : String
  marks : List (Option Bool)
  completed_days : Nat
deriving DecidableEq, Repr

/-- `client.goals.filter_by(week_start=week_start.date(), is_active=True)`. -/
def goalsForWeek (db : DB) (cid : Nat) (ws : Int) : List WeeklyGoal :=
  db.goals.filter (fun g =>
    g.client_id == cid && g.week_start == ws && g.is_active)

/-- `goal.completions.filter(GoalCompletion.completion_date.between(...))`. -/
def goalCompletionsBetween (db : DB) (gid : Nat) (ws we : Int) :
    List GoalCompletion :=
  db.goal_completions.filter (fun c => c.goal_id == gid &&
    decide (ws ≤ c.completion_date) && decide (c.completion_date ≤ we))

/-- Rows of the Weekly Goals sheet. -/
def goalRows (db : DB) (cid : Nat) (ws we : Int) : List GoalRow :=
  (goalsForWeek db cid ws).map (fun goal =>
    let completions := goalCompletionsBetween db goal.id ws we
    let marks := (List.range 7).map (fun i =>
      (completions.find? (fun c => c.completion_date == ws + Int.ofNat i)).map
        (fun c => c.completed))
    { goal_text := goal.goal_text
      marks := marks
      completed_days := (marks.filter (fun m => m == some true)).length })

/-- One row of the Therapist Notes sheet. -/
structure NoteRow where
  created_day : Int
  created_tick : Nat
  kind : String
  content : String
  status : String
deriving DecidableEq, Repr

/-- The week's notes: `TherapistNote.query.filter(client, therapist,
created_at.between(week start 00:00, week end 23:59:59.999999))
.order_by(created_at)` — on the day/tick split the datetime window is
exactly a day-range test. -/
def notesForWeek (db : DB) (cid tid : Nat) (ws we : Int) :
    List TherapistNote :=
  sortBy (fun a b => decide (a.created_day < b.created_day) ||
      (a.created_day == b.created_day && decide (a.created_tick ≤ b.created_tick)))
    (db.notes.filter (fun n => n.client_id == cid && n.therapist_id == tid &&
      decide (ws ≤ n.created_day) && decide (n.created_day ≤ we)))

/-- Rows of the Therapist Notes sheet.  `note_type.title()` is modelled
by `String.capitalize` (the column holds single-word types). -/
def noteRows (db : DB) (cid tid : Nat) (ws we : Int) : List NoteRow :=
  (notesForWeek db cid tid ws we).map (fun note =>
    { created_day := note.created_day
      created_tick := note.created_tick
      kind := if note.is_mission then "MISSION" else note.note_type.capitalize
      content := note.content
      status := if note.is_mission then
          (if note.mission_completed then "Completed" else "Pending")
        else "-" })

/-- `additional_categories`: active tracking plans whose category is not
one of the three built-in ones (a plan whose category row is missing
would crash the source's `plan.category.name`; it is skipped here). -/
def additionalCategories (db : DB) (cid : Nat) : List TrackingCategory :=
  (db.tracking_plans.filter (fun p => p.client_id == cid && p.is_active)).filterMap
    (fun p =>
      match db.categories.find? (fun cat => cat.id == p.category_id) with
      | some cat =>
        if cat.name == "Emotion Level" || cat.name == "Medication" ||
            cat.name == "Physical Activity" then none
        else some cat
      | none => none)

/-- Rows of the Additional Tracking sheet: per day, the date and one
optional response value per additional category. -/
def trackingRows (db : DB) (cid : Nat) (ws : Int)
    (cats : List TrackingCategory) : List (Int × List (Option Int)) :=
  (List.range 7).map (fun i =>
    let current_date := ws + Int.ofNat i
    (current_date, cats.map (fun cat =>
      (db.category_responses.find? (fun r => r.client_id == cid &&
          r.category_id == cat.id && r.response_date == current_date)).map
        (fun r => r.value))))

/-- A sheet of the therapist workbook. -/
inductive Sheet where
  | checkins (rows : List DayRow)
  | summary (rows : List SummaryEntry)
  | goals (rows : List GoalRow)
  | notes (rows : List NoteRow)
  | tracking (cat_names : List String) (rows : List (Int × List (Option Int)))
deriving DecidableEq, Repr

/-- The worksheet title each sheet is created with. -/
def sheetName : Sheet → String
  | .checkins _ => "Daily Check-ins"
  | .summary _ => "Weekly Summary"
  | .goals _ => "Weekly Goals"
  | .notes _ => "Therapist Notes"
  | .tracking _ _ => "Additional Tracking"

/-- Translation of `create_weekly_report_excel`: the four sheets are
created unconditionally, in this order; the Additional Tracking sheet
is created only when the client has additional categories. -/
def create_weekly_report_excel (db : DB) (client : Client) (tid : Nat)
    (ws we : Int) : List Sheet :=
  let cs := weekCheckins db client.id ws we
  [Sheet.checkins (dayRows ws cs),
   Sheet.summary (summaryData ws cs),
   Sheet.goals (goalRows db client.id ws we),
   Sheet.notes (noteRows db client.id tid ws we)] ++
  (let additional_categories := additionalCategories db client.id
   if additional_categories.isEmpty then []
   else [Sheet.tracking (additional_categories.map (fun c => c.name))
          (trackingRows db client.id ws additional_categories)])

/-- One line of the client report's WEEKLY SUMMARY block. -/
structure ClientSummaryLine where
  label : String
  amount : ℚ
deriving DecidableEq, Repr

/-- The client report's summary block: note that the two averages
divide by `total_checkins` (the number of check-ins in the week), not by
the number of non-null values. -/
def client_summary (cs : List DailyCheckin) : List ClientSummaryLine :=
  let total_checkins := cs.length
  let base : List ClientSummaryLine :=
    [{ label := "Total Check-ins", amount := (total_checkins : ℚ) }]
  if total_checkins > 0 then
    let avg_emotional : ℚ :=
      ((cs.filterMap (fun c => truthyInt c.emotional_value)).map
        (fun v : Int => (v : ℚ))).sum / total_checkins
    let med_adherent :=
      (cs.filter (fun c => c.medication_value == some 5)).length
    let avg_activity : ℚ :=
      ((cs.filterMap (fun c => truthyInt c.activity_value)).map
        (fun v : Int => (v : ℚ))).sum / total_checkins
    base ++
      [{ label := "Average Emotional Rating", amount := avg_emotional },
       { label := "Medication Adherence", amount := (med_adherent : ℚ) },
       { label := "Average Activity Level", amount := avg_activity }]
  else base

/-- A block of the client report's single sheet.  There is no notes
block: `client_generate_report` never renders therapist notes. -/
inductive ClientSection where
  | table (rows : List DayRow)
  | summary (lines : List ClientSummaryLine)
  | goals (rows : List (String × Nat))
deriving DecidableEq, Repr

/-- Block kind, for stating which blocks are present. -/
inductive CTag where
  | table
  | summary
  | goals
deriving DecidableEq, Repr

/-- Tag of a client-report block. -/
def clientSectionTag : ClientSection → CTag
  | .table _ => CTag.table
  | .summary _ => CTag.summary
  | .goals _ => CTag.goals

/-- The client report's WEEKLY GOALS block rows (no `is_active` filter
here, unlike the therapist sheet). -/
def client_goal_rows (db : DB) (cid : Nat) (ws we : Int) :
    List (String × Nat) :=
  (db.goals.filter (fun g => g.client_id == cid && g.week_start == ws)).map
    (fun goal =>
      (goal.goal_text,
        ((goalCompletionsBetween db goal.id ws we).filter
          (fun c => c.completed)).length))

/-- Translation of `client_generate_report`: parse the week (a parse
failure raises and is answered with a 500, here `none`), resolve the
week window, build the day grid and summary, and append the goals block
only `if weekly_goals:` (i.e. only when the week has goals). -/
def client_generate_report (db : DB) (client : Client) (week : String) :
    Option (List ClientSection) :=
  match parseWeek week with
  | none => none
  | some (year, week_num) =>
    let ws := weekStartOrd year week_num
    let we := ws + 6
    let cs := weekCheckins db client.id ws we
    let weekly_goals :=
      db.goals.filter (fun g => g.client_id == client.id && g.week_start == ws)
    some ([ClientSection.table (dayRows ws cs),
           ClientSection.summary (client_summary cs)] ++
      (if weekly_goals.isEmpty then []
       else [ClientSection.goals (client_goal_rows db client.id ws we)]))

/-! ## Request handlers

The therapist-side endpoints are embedded as functions of the store.
`generate_report` and `email_therapy_report` additionally return the
list of tables read during the request, in order, so that "rejected
before touching the data store" is statable. -/

/-- A table of the store, for read traces. -/
inductive Tbl where
  | clients
  | checkins
  | goals
  | goal_completions
  | notes
  | tracking_plans
  | categories
  | category_responses
deriving DecidableEq, Repr

/-- One tracking-plan entry of the client-details payload. -/
structure PlanView where
  id : Nat
  category : String
  description : Option String
deriving DecidableEq, Repr

/-- One active-goal entry of the client-details payload. -/
structure GoalView where
  id : Nat
  text : String
  completions : List (Option Bool)
deriving DecidableEq, Repr

/-- One recent-check-in entry of the client-details payload. -/
structure CheckinView where
  date : Int
  emotional : Option Int
  medication : Option Int
  activity : Option Int
deriving DecidableEq, Repr

/-- One note entry of the client-details payload. -/
structure NoteView where
  id : Nat
  kind : String
  content : String
  is_mission : Bool
  completed : Bool
  created_day : Int
  created_tick : Nat
deriving DecidableEq, Repr

/-- The success payload of `get_client_details`. -/
structure ClientDetails where
  id : Nat
  serial : String
  start_date : Int
  is_active : Bool
  tracking_plans : List PlanView
  active_goals : List GoalView
  recent_checkins : List CheckinView
  notes : List NoteView
deriving DecidableEq, Repr

/-- The summary numbers of the e-mail body built by
`email_therapy_report`. -/
structure EmailSummary where
  checkins_completed : Nat
  avg_emotional : ℚ
  adherence_rate : ℚ
  avg_activity : ℚ
deriving DecidableEq, Repr

/-- An HTTP response: status and body, as far as the claims observe it. -/
inductive Resp where
  | error (status : Nat) (msg : String)
  | details (body : ClientDetails)
  | workbook (sheets : List Sheet)
  | emailPreview (summary : EmailSummary)
deriving DecidableEq, Repr

/-- Whether a response is a rejection. -/
def Resp.isError : Resp → Bool
  | .error _ _ => true
  | _ => false

/-- `Client.query.filter_by(id=client_id, therapist_id=therapist.id)
.first()` — the single lookup used by every therapist endpoint to both
resolve and authorize a client. -/
def clientForTherapist (db : DB) (client_id therapist_id : Nat) :
    Option Client :=
  db.clients.find? (fun c =>
    c.id == client_id && c.therapist_id == some therapist_id)

/-- Translation of `get_client_details` (`today` is `date.today()`):
a client that is absent or owned by a different therapist yields
`404 Client not found`; otherwise the details payload is assembled. -/
def get_client_details (db : DB) (tid client_id : Nat) (today : Int) :
    Resp :=
  match clientForTherapist db client_id tid with
  | none => Resp.error 404 "Client not found"
  | some client =>
    let tracking_plans :=
      (db.tracking_plans.filter (fun p =>
          p.client_id == client.id && p.is_active)).map (fun p =>
        { id := p.id
          category := ((db.categories.find? (fun cat =>
              cat.id == p.category_id)).map (fun cat => cat.name)).getD ""
          description := (db.categories.find? (fun cat =>
              cat.id == p.category_id)).bind (fun cat => cat.description)
          : PlanView })
    let week_start := today - pyWeekday today
    let active_goals :=
      (db.goals.filter (fun g => g.client_id == client.id &&
          g.week_start == week_start && g.is_active)).map (fun goal =>
        { id := goal.id
          text := goal.goal_text
          completions := (List.range 7).map (fun i =>
            (db.goal_completions.find? (fun c => c.goal_id == goal.id &&
                c.completion_date == week_start + Int.ofNat i)).map
              (fun c => c.completed))
          : GoalView })
    let recent_checkins :=
      ((sortBy (fun a b => decide (b.checkin_date ≤ a.checkin_date))
          (db.checkins.filter (fun c => c.client_id == client.id))).take 7).map
        (fun c =>
          { date := c.checkin_date
            emotional := c.emotional_value
            medication := c.medication_value
            activity := c.activity_value
            : CheckinView })
    let notes :=
      ((sortBy (fun a b =>
          decide (b.created_day < a.created_day) ||
            (a.created_day == b.created_day &&
              decide (b.created_tick ≤ a.created_tick)))
          (db.notes.filter (fun n => n.client_id == client.id &&
            n.therapist_id == tid))).take 10).map
        (fun n =>
          { id := n.id
            kind := n.note_type
            content := n.content
            is_mission := n.is_mission
            completed := n.mission_completed
            created_day := n.created_day
            created_tick := n.created_tick
            : NoteView })
    Resp.details
      { id := client.id
        serial := client.client_serial
        start_date := client.start_date
        is_active := client.is_active
        tracking_plans := tracking_plans
        active_goals := active_goals
        recent_checkins := recent_checkins
        notes := notes }

/-- Translation of `generate_report` with its read trace.  The client
lookup runs first; the week designator is parsed only afterwards (a
parse failure raises `ValueError`, answered by the catch-all handler
with a 500); only then is the workbook built, reading the remaining
tables. -/
def generate_report (db : DB) (tid client_id : Nat) (week : String) :
    Resp × List Tbl :=
  match clientForTherapist db client_id tid with
  | none => (Resp.error 404 "Client not found", [Tbl.clients])
  | some client =>
    match parseWeek week with
    | none => (Resp.error 500 "invalid week designator", [Tbl.clients])
    | some (year, week_num) =>
      let ws := weekStartOrd year week_num
      let we := ws + 6
      (Resp.workbook (create_weekly_report_excel db client tid ws we),
        [Tbl.clients, Tbl.checkins, Tbl.goals, Tbl.goal_completions,
         Tbl.notes, Tbl.tracking_plans, Tbl.categories,
         Tbl.category_responses])

/-- Translation of `email_therapy_report` (the deterministic
no-mail-configuration branch, which returns the e-mail preview) with
its read trace: field validation, then the client lookup, then the week
parse (here rejected with an explicit 400), then the summary built from
the week's check-ins. -/
def email_therapy_report (db : DB) (tid : Nat) (client_id : Option Nat)
    (week : Option String) : Resp × List Tbl :=
  match client_id with
  | none => (Resp.error 400 "Client ID is required", [])
  | some cid =>
    match week with
    | none => (Resp.error 400 "Week is required", [])
    | some wk =>
      match clientForTherapist db cid tid with
      | none => (Resp.error 404 "Client not found", [Tbl.clients])
      | some client =>
        match parseWeek wk with
        | none => (Resp.error 400 "Invalid week format", [Tbl.clients])
        | some (year, week_num) =>
          let ws := weekStartOrd year week_num
          let we := ws + 6
          let cs := weekCheckins db client.id ws we
          let checkins_completed := cs.length
          let emotional_values :=
            cs.filterMap (fun c => truthyInt c.emotional_value)
          let avg_emotional : ℚ :=
            if checkins_completed > 0 then
              (if emotional_values.isEmpty then 0
               else meanOf emotional_values)
            else 0
          let med_values :=
            cs.filterMap (fun c => (truthyInt c.medication_value).bind
              (fun v => if 0 < v then some v else none))
          let adherence_rate : ℚ :=
            if checkins_completed > 0 then
              (if med_values.isEmpty then 0
               else ((med_values.filter (fun v => v == 5)).length : ℚ)
                 / med_values.length * 100)
            else 0
          let activity_values :=
            cs.filterMap (fun c => truthyInt c.activity_value)
          let avg_activity : ℚ :=
            if checkins_completed > 0 then
              (if activity_values.isEmpty then 0
               else meanOf activity_values)
            else 0
          (Resp.emailPreview
            { checkins_completed := checkins_completed
              avg_emotional := avg_emotional
              adherence_rate := adherence_rate
              avg_activity := avg_activity },
            [Tbl.clients, Tbl.checkins])

/-! ## Concrete fixtures for witnesses and counterexamples -/

/-- A client owned by therapist 1. -/
def clientA : Client :=
  { id := 1
    user_id := some 1
    client_serial := "C12345678"
    therapist_id := some 1
    start_date := 0
    is_active := true }

/-- A client owned by therapist 2. -/
def clientB : Client :=
  { id := 2
    user_id := some 2
    client_serial := "C87654321"
    therapist_id := some 2
    start_date := 0
    is_active := true }

/-- A store holding only the two clients: no check-ins, goals,
completions, notes, plans, categories or responses. -/
def dbAB : DB :=
  { clients := [clientA, clientB]
    checkins := []
    goals := []
    goal_completions := []
    notes := []
    tracking_plans := []
    categories := []
    category_responses := [] }

/-- A check-in with emotional and activity ratings filled in. -/
def checkinRated : DailyCheckin :=
  { client_id := 1
    checkin_date := 10
    checkin_time := 8
    emotional_value := some 4
    emotional_notes := none
    medication_value := none
    medication_notes := none
    activity_value := some 4
    activity_notes := none }

/-- A check-in of the next day with no ratings at all. -/
def checkinUnrated : DailyCheckin :=
  { client_id := 1
    checkin_date := 11
    checkin_time := 8
    emotional_value := none
    emotional_notes := none
    medication_value := none
    medication_notes := none
    activity_value := none
    activity_notes := none }

/-- A store with one client and the two check-ins above (a week starting
at ordinal 10 contains both). -/
def dbC3 : DB :=
  { clients := [clientA]
    checkins := [checkinRated, checkinUnrated]
    goals := []
    goal_completions := []
    notes := []
    tracking_plans := []
    categories := []
    category_responses := [] }

end SWB

namespace SWB

theorem filter_updateFirst {α : Type} {p : α → Bool} {f : α → α} {l : List α} {a : α}
    (hf : ∀ x, p x = true → p (f x) = true)
    (h : l.find? p = some a) (hlen : (l.filter p).length ≤ 1) :
    (updateFirst p f l).filter p = [f a] := by
  induction l with
  | nil => simp at h
  | cons x xs ih =>
    by_cases hx : p x = true
    · rw [List.find?_cons_of_pos _ hx] at h
      obtain rfl : x = a := by injection h
      have hfx := hf x hx
      simp only [updateFirst, if_pos hx, List.filter_cons, hfx, if_pos, hx] at *
      have : xs.filter p = [] := by
        rcases hnil : xs.filter p with _ | ⟨y, ys⟩
        · rfl
        · rw [hnil] at hlen; simp at hlen
      simp [this]
    · rw [List.find?_cons_of_neg _ hx] at h
      rw [List.filter_cons, if_neg hx] at hlen
      have hu : updateFirst p f (x :: xs) = x :: updateFirst p f xs := by
        simp [updateFirst, hx]
      rw [hu, List.filter_cons, if_neg hx]
      exact ih h hlen

theorem submit_filter_eq (store : List DailyCheckin) (cid : Nat) (d today : Int)
    (now : Nat) (data : CheckinData)
    (hd : data.date.getD today = d)
    (hlen : (store.filter (checkinKey cid d)).length ≤ 1) :
    (submit_checkin_daily store cid today now data).filter (checkinKey cid d)
      = [submittedRow cid d now data] := by
  subst hd
  simp only [submit_checkin_daily]
  split
  · next c heq =>
    rw [filter_updateFirst ?_ heq hlen]
    · have hc := List.find?_some heq
      simp only [checkinKey, Bool.and_eq_true, beq_iff_eq] at hc
      obtain ⟨hc1, hc2⟩ := hc
      cases c
      simp_all [submittedRow]
    · intro x hx
      simpa [checkinKey] using hx
  · next heq =>
    rw [List.filter_append]
    have : store.filter (checkinKey cid (data.date.getD today)) = [] := by
      rw [List.filter_eq_nil_iff]
      intro x hx
      exact List.find?_eq_none.mp heq x hx
    rw [this]
    simp [checkinKey, submittedRow]

/-- C2: submitting a daily check-in twice for the same `(client, date)`
key — starting from any store satisfying the table's uniqueness
constraint on that key — leaves exactly one stored `DailyCheckin` row
for that key, and its field values are exactly those of the second
submission. -/
theorem checkin_upsert_idempotent (store : List DailyCheckin) (cid : Nat)
    (d today1 today2 : Int) (now1 now2 : Nat) (data1 data2 : CheckinData)
    (hu : (store.filter (checkinKey cid d)).length ≤ 1)
    (h1 : data1.date.getD today1 = d) (h2 : data2.date.getD today2 = d) :
    ((submit_checkin_daily (submit_checkin_daily store cid today1 now1 data1)
        cid today2 now2 data2).filter (checkinKey cid d))
      = [submittedRow cid d now2 data2] := by
  have e1 := submit_filter_eq store cid d today1 now1 data1 h1 hu
  exact submit_filter_eq _ cid d today2 now2 data2 h2 (by rw [e1]; simp)

theorem checkin_upsert_idempotent_witness :
    ((([] : List DailyCheckin).filter (checkinKey 1 5)).length ≤ 1 ∧
      checkinDataA.date.getD 0 = 5 ∧ checkinDataB.date.getD 0 = 5) ∧
    ((submit_checkin_daily (submit_checkin_daily [] 1 0 10 checkinDataA)
        1 0 20 checkinDataB).filter (checkinKey 1 5))
      = [submittedRow 1 5 20 checkinDataB] :=
  ⟨⟨by decide, by decide, by decide⟩,
    checkin_upsert_idempotent [] 1 5 0 0 10 20 checkinDataA checkinDataB
      (by decide) (by decide) (by decide)⟩

/-- C10: when a submission finds an existing `DailyCheckin` row for the
key, the stored result is a full replace, not a merge: the single row
for the key has every value/notes field equal to the submitted value
(`none` when the field was omitted from the submission), and its
check-in time is the time of the latest submission — nothing of the old
row's payload survives. -/
theorem checkin_update_full_replace (store : List DailyCheckin) (cid : Nat)
    (d today : Int) (now : Nat) (data : CheckinData) (c : DailyCheckin)
    (hu : (store.filter (checkinKey cid d)).length ≤ 1)
    (hd : data.date.getD today = d)
    (_hex : store.find? (checkinKey cid d) = some c) :
    ((submit_checkin_daily store cid today now data).filter
        (checkinKey cid d)).length = 1 ∧
    ∀ r ∈ (submit_checkin_daily store cid today now data).filter
        (checkinKey cid d),
      r.checkin_time = now ∧
      r.emotional_value = data.emotional_value ∧
      r.emotional_notes = data.emotional_notes ∧
      r.medication_value = data.medication_value ∧
      r.medication_notes = data.medication_notes ∧
      r.activity_value = data.activity_value ∧
      r.activity_notes = data.activity_notes := by
  have e := submit_filter_eq store cid d today now data hd hu
  refine ⟨by rw [e]; rfl, ?_⟩
  intro r hr
  rw [e] at hr
  simp only [List.mem_singleton] at hr
  subst hr
  simp [submittedRow]

theorem checkin_update_full_replace_witness :
    (([checkinRowOld].filter (checkinKey 1 5)).length ≤ 1 ∧
      checkinDataB.date.getD 0 = 5 ∧
      [checkinRowOld].find? (checkinKey 1 5) = some checkinRowOld) ∧
    (((submit_checkin_daily [checkinRowOld] 1 0 20 checkinDataB).filter
        (checkinKey 1 5)).length = 1 ∧
      ∀ r ∈ (submit_checkin_daily [checkinRowOld] 1 0 20 checkinDataB).filter
          (checkinKey 1 5),
        r.checkin_time = 20 ∧
        r.emotional_value = checkinDataB.emotional_value ∧
        r.emotional_notes = checkinDataB.emotional_notes ∧
        r.medication_value = checkinDataB.medication_value ∧
        r.medication_notes = checkinDataB.medication_notes ∧
        r.activity_value = checkinDataB.activity_value ∧
        r.activity_notes = checkinDataB.activity_notes) :=
  ⟨⟨by decide, by decide, by decide⟩,
    checkin_update_full_replace [checkinRowOld] 1 5 0 20 checkinDataB
      checkinRowOld (by decide) (by decide) (by decide)⟩

/-- C1 counterexample: the claim pins `2023-W1` to Monday 2023-01-02, but
the code resolves `2023-W1` to Monday 2022-12-26 (the Monday of the week
containing January 1, which for 2023 falls in the previous year). The
2024 pin does hold. -/
theorem weekStart_2023_counterexample :
    weekStartOrd 2023 1 = toOrdinal 2022 12 26 ∧
    weekStartOrd 2023 1 ≠ toOrdinal 2023 1 2 ∧
    pyWeekday (toOrdinal 2023 1 1) ≠ 0 ∧
    weekStartOrd 2024 1 = toOrdinal 2024 1 1 := by
  refine ⟨by decide, by decide, by decide, by decide⟩

/-- C1 (amended): the resolved week start is the Monday *on or before*
January 1 of the year (the Monday of the week containing Jan 1 — which is
Jan 1 itself exactly when Jan 1 is a Monday), plus `(week_num - 1)` whole
weeks; the result is always a Monday.  In particular `2024-W1` resolves
to Monday 2024-01-01, while `2023-W1` resolves to Monday 2022-12-26. -/
theorem weekStart_amended (year week_num : Int) :
    weekStartOrd year week_num =
      toOrdinal year 1 1 - pyWeekday (toOrdinal year 1 1) + 7 * (week_num - 1) ∧
    pyWeekday (weekStartOrd year week_num) = 0 ∧
    (pyWeekday (toOrdinal year 1 1) = 0 →
      weekStartOrd year week_num = toOrdinal year 1 1 + 7 * (week_num - 1)) ∧
    weekStartOrd 2024 1 = toOrdinal 2024 1 1 ∧
    weekStartOrd 2023 1 = toOrdinal 2022 12 26 := by
  refine ⟨?_, ?_, ?_, by decide, by decide⟩ <;>
    · simp only [weekStartOrd, pyWeekday]
      generalize toOrdinal year 1 1 = j
      omega

theorem serial_loop_all_collide (i fuel : Nat) :
    generate_client_serial digitsConst [clientC0] i fuel = none := by
  induction fuel generalizing i with
  | zero => rfl
  | succ n ih => exact ih (i + 1)

/-- C7 counterexample: the serial-collision retry loop is `while True`
with no iteration cap — with a draw stream that always collides (store
already holds `C00000000`, every draw is `00000000`) the loop is still
running after `N` iterations, for every `N`. -/
theorem serial_retry_unbounded :
    ¬ ∀ (digits : Nat → String) (clients : List Client), ∃ N : Nat,
        (generate_client_serial digits clients 0 N).isSome := by
  intro h
  obtain ⟨N, hN⟩ := h digitsConst [clientC0]
  rw [serial_loop_all_collide 0 N] at hN
  simp at hN

/-- C7 (amended): the retry loop has no finite upper bound on
iterations; it retries until a free value is found — a run of `fuel`
iterations has returned a serial exactly when some draw among those
`fuel` iterations produces a serial free of collisions with the
existing clients. -/
theorem serial_retry_terminates_iff (digits : Nat → String)
    (clients : List Client) (i fuel : Nat) :
    (generate_client_serial digits clients i fuel).isSome ↔
      ∃ k, k < fuel ∧
        clients.find? (fun c => c.client_serial == "C" ++ digits (i + k))
          = none := by
  induction fuel generalizing i with
  | zero => simp [generate_client_serial]
  | succ n ih =>
    simp only [generate_client_serial]
    cases hf : clients.find? (fun c => c.client_serial == "C" ++ digits i) with
    | some c =>
      simp only
      rw [ih (i + 1)]
      constructor
      · rintro ⟨k, hk, h⟩
        refine ⟨k + 1, by omega, ?_⟩
        have : i + (k + 1) = i + 1 + k := by omega
        rw [this]
        exact h
      · rintro ⟨k, hk, h⟩
        cases k with
        | zero =>
          rw [Nat.add_zero] at h
          rw [h] at hf
          cases hf
        | succ k =>
          refine ⟨k, by omega, ?_⟩
          have : i + 1 + k = i + (k + 1) := by omega
          rw [this]
          exact h
    | none =>
      simp only [Option.isSome_some, true_iff]
      exact ⟨0, by omega, by simpa using hf⟩

theorem generate_serial_spec (digits : Nat → String) (clients : List Client)
    (i fuel : Nat) (s : String)
    (h : generate_client_serial digits clients i fuel = some s) :
    (∃ k, s = "C" ++ digits k) ∧ ∀ c ∈ clients, c.client_serial ≠ s := by
  induction fuel generalizing i with
  | zero => simp [generate_client_serial] at h
  | succ n ih =>
    simp only [generate_client_serial] at h
    cases hf : clients.find? (fun c => c.client_serial == "C" ++ digits i) with
    | some c =>
      rw [hf] at h
      exact ih (i + 1) h
    | none =>
      rw [hf] at h
      obtain rfl : "C" ++ digits i = s := by injection h
      refine ⟨⟨i, rfl⟩, ?_⟩
      intro c hc
      have := List.find?_eq_none.mp hf c hc
      simpa using this

/-- C9: every serial produced by the generator is the fixed prefix `C`
followed by exactly 8 digits (each draw being an 8-digit string), the
generator only returns a serial not already present among existing
clients, and generating `n` clients in sequence yields `n` pairwise
distinct serials. -/
theorem serial_shape_and_unique (digitsSeq : Nat → Nat → String)
    (fuel : Nat) (clients : List Client) (n : Nat) (l : List String)
    (hdig : digitsOk digitsSeq)
    (hgen : genSerials digitsSeq fuel clients n = some l) :
    (∀ s ∈ l, s.length = 9 ∧ s.data.head? = some 'C' ∧
        (∀ ch ∈ s.data.tail, ch.isDigit) ∧
        ∀ c ∈ clients, c.client_serial ≠ s) ∧
    l.Nodup := by
  induction n generalizing clients l with
  | zero =>
    simp only [genSerials] at hgen
    obtain rfl : ([] : List String) = l := by injection hgen
    simp
  | succ n ih =>
    simp only [genSerials] at hgen
    split at hgen
    · cases hgen
    · rename_i s h1
      split at hgen
      · cases hgen
      · rename_i rest h2
        obtain rfl : s :: rest = l := by injection hgen
        obtain ⟨⟨k, hk⟩, hfree⟩ := generate_serial_spec _ _ _ _ _ h1
        obtain ⟨hrest, hnd⟩ := ih (mkClient s :: clients) rest h2
        have hshape : s.length = 9 ∧ s.data.head? = some 'C' ∧
            ∀ ch ∈ s.data.tail, ch.isDigit := by
          subst hk
          obtain ⟨hlen, hdigits⟩ := hdig n k
          refine ⟨?_, ?_, ?_⟩
          · rw [String.length_append, hlen]
            decide
          · rw [String.data_append]
            rfl
          · rw [String.data_append]
            intro ch hch
            exact hdigits ch (by simpa using hch)
        refine ⟨?_, ?_⟩
        · intro t ht
          rcases List.mem_cons.mp ht with rfl | ht
          · exact ⟨hshape.1, hshape.2.1, hshape.2.2, hfree⟩
          · obtain ⟨a1, a2, a3, a4⟩ := hrest t ht
            exact ⟨a1, a2, a3, fun c hc => a4 c (List.mem_cons_of_mem _ hc)⟩
        · rw [List.nodup_cons]
          refine ⟨?_, hnd⟩
          intro hmem
          exact (hrest s hmem).2.2.2 (mkClient s) (List.mem_cons_self _ _) rfl

theorem serial_shape_and_unique_witness :
    (digitsOk digitsSeqW ∧
      genSerials digitsSeqW 1 [] 2 = some ["C11111111", "C00000000"]) ∧
    ((∀ s ∈ ["C11111111", "C00000000"], s.length = 9 ∧
        s.data.head? = some 'C' ∧ (∀ ch ∈ s.data.tail, ch.isDigit) ∧
        ∀ c ∈ ([] : List Client), c.client_serial ≠ s) ∧
      (["C11111111", "C00000000"] : List String).Nodup) := by
  have hd : digitsOk digitsSeqW := by
    intro k j
    unfold digitsSeqW
    split <;> exact ⟨rfl, by decide⟩
  have hg : genSerials digitsSeqW 1 [] 2 = some ["C11111111", "C00000000"] := by
    rfl
  exact ⟨⟨hd, hg⟩, serial_shape_and_unique digitsSeqW 1 [] 2 _ hd hg⟩

/-- C4: for every completion rate `r` the qualitative rating of the
Weekly Summary sheet is `Excellent` when `r ≥ 80`, `Good` when
`60 ≤ r < 80`, and `Needs Improvement` when `r < 60`; the boundary
values 80 and 60 land in the higher bucket. -/
theorem completion_bucket (r : ℚ) :
    (80 ≤ r → completionRating r = "Excellent") ∧
    (60 ≤ r → r < 80 → completionRating r = "Good") ∧
    (r < 60 → completionRating r = "Needs Improvement") := by
  refine ⟨fun h => ?_, fun h1 h2 => ?_, fun h => ?_⟩
  · rw [completionRating, if_pos h]
  · rw [completionRating, if_neg (not_le.mpr h2), if_pos h1]
  · rw [completionRating, if_neg (not_le.mpr (h.trans (by norm_num))),
      if_neg (not_le.mpr h)]

theorem completion_bucket_witness :
    ((80 : ℚ) ≤ 80 ∧ completionRating 80 = "Excellent") ∧
    ((60 : ℚ) ≤ 60 ∧ (60 : ℚ) < 80 ∧ completionRating 60 = "Good") ∧
    ((59 : ℚ) < 60 ∧ completionRating 59 = "Needs Improvement") :=
  ⟨⟨by norm_num, (completion_bucket 80).1 (by norm_num)⟩,
   ⟨by norm_num, by norm_num,
     (completion_bucket 60).2.1 (by norm_num) (by norm_num)⟩,
   ⟨by norm_num, (completion_bucket 59).2.2 (by norm_num)⟩⟩

/-- C5 counterexample: a report request with an unparseable week
designator is rejected only after the client row has been read — the
therapist endpoint performs the client authorization lookup first and
parses the week afterwards, so the rejected request's read trace
already contains the clients table (the claim requires it empty). -/
theorem reject_week_after_client_read :
    parseWeek "banana" = none ∧
    (generate_report dbAB 1 1 "banana").1
      = Resp.error 500 "invalid week designator" ∧
    (generate_report dbAB 1 1 "banana").2 = [Tbl.clients] :=
  ⟨by decide, by decide, by decide⟩

/-- C5 (amended): a report request with an unparseable week designator
is always rejected, and the only store read preceding the rejection is
the client authorization lookup — no check-in, goal, goal-completion or
note rows are read.  This holds for the download endpoint
(`generate_report`) and for the e-mail endpoint
(`email_therapy_report`). -/
theorem reject_invalid_week (db : DB) (tid cid : Nat) (week : String)
    (hw : parseWeek week = none) :
    ((generate_report db tid cid week).1.isError = true ∧
      (generate_report db tid cid week).2 = [Tbl.clients]) ∧
    ((email_therapy_report db tid (some cid) (some week)).1.isError = true ∧
      (email_therapy_report db tid (some cid) (some week)).2
        = [Tbl.clients]) := by
  unfold generate_report email_therapy_report
  cases h : clientForTherapist db cid tid <;>
    simp [h, hw, Resp.isError]

theorem reject_invalid_week_witness :
    parseWeek "banana" = none ∧
    (((generate_report dbAB 1 1 "banana").1.isError = true ∧
      (generate_report dbAB 1 1 "banana").2 = [Tbl.clients]) ∧
     ((email_therapy_report dbAB 1 (some 1) (some "banana")).1.isError
        = true ∧
      (email_therapy_report dbAB 1 (some 1) (some "banana")).2
        = [Tbl.clients])) :=
  ⟨by decide, reject_invalid_week dbAB 1 1 "banana" (by decide)⟩

/-- C6: a therapist requesting a client that belongs to another
therapist receives exactly the same response — status and body — as a
therapist requesting a client id that does not exist: on the details
endpoint and on the report download both runs answer with the literal
`404 Client not found`, so the caller cannot distinguish them. -/
theorem auth_error_indistinguishable (db1 db2 : DB)
    (tid1 tid2 cid1 cid2 : Nat) (today1 today2 : Int)
    (week1 week2 : String)
    (h1 : ∀ c ∈ db1.clients, c.id ≠ cid1)
    (h2 : ∀ c ∈ db2.clients, c.id = cid2 → c.therapist_id ≠ some tid2) :
    get_client_details db1 tid1 cid1 today1
      = get_client_details db2 tid2 cid2 today2 ∧
    (generate_report db1 tid1 cid1 week1).1
      = (generate_report db2 tid2 cid2 week2).1 ∧
    get_client_details db1 tid1 cid1 today1
      = Resp.error 404 "Client not found" := by
  have f1 : clientForTherapist db1 cid1 tid1 = none := by
    rw [clientForTherapist, List.find?_eq_none]
    intro c hc
    simp only [Bool.and_eq_true, beq_iff_eq, not_and]
    intro hid
    exact absurd hid (h1 c hc)
  have f2 : clientForTherapist db2 cid2 tid2 = none := by
    rw [clientForTherapist, List.find?_eq_none]
    intro c hc
    simp only [Bool.and_eq_true, beq_iff_eq, not_and]
    intro hid
    exact h2 c hc hid
  refine ⟨?_, ?_, ?_⟩ <;> simp [get_client_details, generate_report, f1, f2]

theorem auth_error_indistinguishable_witness :
    ((∀ c ∈ dbAB.clients, c.id ≠ 5) ∧
      (∀ c ∈ dbAB.clients, c.id = 2 → c.therapist_id ≠ some 1)) ∧
    (get_client_details dbAB 1 5 0 = get_client_details dbAB 1 2 0 ∧
      (generate_report dbAB 1 5 "2024-W1").1
        = (generate_report dbAB 1 2 "2024-W1").1 ∧
      get_client_details dbAB 1 5 0 = Resp.error 404 "Client not found") :=
  ⟨⟨by decide, by decide⟩,
    auth_error_indistinguishable dbAB dbAB 1 1 5 2 0 0 "2024-W1" "2024-W1"
      (by decide) (by decide)⟩

/-- C8 counterexample: the client's own weekly report does not have a
fixed section count — with zero goals for the week the goals section is
omitted entirely (only the day grid and the summary remain), and a
notes section does not exist in this report at all. -/
theorem client_report_omits_empty_sections :
    (client_generate_report dbAB clientA "2024-W1").map
        (fun secs => secs.map clientSectionTag)
      = some [CTag.table, CTag.summary] := by
  decide

/-- C8 (amended): the therapist Excel report always contains the goals
sheet and the notes sheet — for a client with zero goals and zero notes
in the week (and no additional tracking categories) they are present
but empty, and the sheet list is exactly the four fixed sheets.  The
client's own report, by contrast, omits its goals block when the week
has no goals and never has a notes block. -/
theorem report_sections_amended (db : DB) (client : Client) (tid : Nat)
    (ws we : Int)
    (hg : goalsForWeek db client.id ws = [])
    (hn : notesForWeek db client.id tid ws we = [])
    (hc : additionalCategories db client.id = []) :
    Sheet.goals [] ∈ create_weekly_report_excel db client tid ws we ∧
    Sheet.notes [] ∈ create_weekly_report_excel db client tid ws we ∧
    (create_weekly_report_excel db client tid ws we).map sheetName
      = ["Daily Check-ins", "Weekly Summary", "Weekly Goals",
         "Therapist Notes"] := by
  have hgr : goalRows db client.id ws we = [] := by
    rw [goalRows, hg]
    rfl
  have hnr : noteRows db client.id tid ws we = [] := by
    rw [noteRows, hn]
    rfl
  refine ⟨?_, ?_, ?_⟩ <;>
    simp [create_weekly_report_excel, hgr, hnr, hc, sheetName]

theorem report_sections_amended_witness :
    (goalsForWeek dbAB clientA.id 0 = [] ∧
      notesForWeek dbAB clientA.id 1 0 6 = [] ∧
      additionalCategories dbAB clientA.id = []) ∧
    (Sheet.goals [] ∈ create_weekly_report_excel dbAB clientA 1 0 6 ∧
      Sheet.notes [] ∈ create_weekly_report_excel dbAB clientA 1 0 6 ∧
      (create_weekly_report_excel dbAB clientA 1 0 6).map sheetName
        = ["Daily Check-ins", "Weekly Summary", "Weekly Goals",
           "Therapist Notes"]) :=
  ⟨⟨by decide, by decide, by decide⟩,
    report_sections_amended dbAB clientA 1 0 6
      (by decide) (by decide) (by decide)⟩

theorem insertBy_perm (le : α → α → Bool) (x : α) (l : List α) :
    (insertBy le x l).Perm (x :: l) := by
  induction l with
  | nil => exact List.Perm.refl _
  | cons y ys ih =>
    rw [insertBy]
    split
    · exact List.Perm.refl _
    · exact (ih.cons y).trans (List.Perm.swap x y ys)

theorem sortBy_perm (le : α → α → Bool) (l : List α) :
    (sortBy le l).Perm l := by
  induction l with
  | nil => exact List.Perm.refl _
  | cons x xs ih => exact (insertBy_perm le x (sortBy le xs)).trans (ih.cons x)

theorem filterMap_none_nil {α β : Type} (l : List α) :
    l.filterMap (fun _ => (none : Option β)) = [] := by
  induction l with
  | nil => rfl
  | cons a l ih => rw [List.filterMap_cons]; exact ih

theorem filterMapCongr {α β : Type} {f g : α → Option β} :
    ∀ {l : List α}, (∀ a ∈ l, f a = g a) → l.filterMap f = l.filterMap g := by
  intro l
  induction l with
  | nil => intro; rfl
  | cons a l ih =>
    intro h
    rw [List.filterMap_cons, List.filterMap_cons,
      h a (List.mem_cons_self a l),
      ih (fun b hb => h b (List.mem_cons_of_mem _ hb))]

theorem filterMap_find?_perm {α : Type} (key : α → Int) :
    ∀ (cs : List α) (days : List Int), days.Nodup →
      (∀ c ∈ cs, key c ∈ days) →
      cs.Pairwise (fun a b => key a ≠ key b) →
      (days.filterMap (fun d => cs.find? (fun c => key c == d))).Perm cs := by
  intro cs
  induction cs with
  | nil =>
    intro days _ _ _
    have h1 : (fun d => ([] : List α).find? (fun c => key c == d))
        = (fun _ => (none : Option α)) := by
      funext d
      exact List.find?_nil
    rw [h1, filterMap_none_nil]
  | cons c cs ih =>
    intro days hnd hmem hpair
    obtain ⟨hhead, htail⟩ := List.pairwise_cons.mp hpair
    obtain ⟨l, r, rfl⟩ :=
      List.append_of_mem (hmem c (List.mem_cons_self c cs))
    rw [List.nodup_append] at hnd
    obtain ⟨hndl, hndcr, hdisj⟩ := hnd
    obtain ⟨hkr, hndr⟩ := List.nodup_cons.mp hndcr
    have hkl : key c ∉ l := fun h => hdisj h (List.mem_cons_self _ _)
    have hfc : List.find? (fun x => key x == key c) (c :: cs) = some c :=
      List.find?_cons_of_pos _ (by simp)
    have hskip : ∀ d ∈ l ++ r,
        List.find? (fun x => key x == d) (c :: cs)
          = List.find? (fun x => key x == d) cs := by
      intro d hd
      have hdc : d ≠ key c := by
        rcases List.mem_append.mp hd with h | h
        · exact fun e => hkl (e ▸ h)
        · exact fun e => hkr (e ▸ h)
      rw [List.find?_cons_of_neg]
      simp only [beq_iff_eq]
      exact fun e => hdc e.symm
    rw [List.filterMap_append]
    have hmid : List.filterMap
        (fun d => List.find? (fun x => key x == d) (c :: cs)) (key c :: r)
        = c :: List.filterMap
            (fun d => List.find? (fun x => key x == d) (c :: cs)) r := by
      rw [List.filterMap_cons]
      simp only [hfc]
    rw [hmid]
    have hl : List.filterMap
        (fun d => List.find? (fun x => key x == d) (c :: cs)) l
        = List.filterMap (fun d => List.find? (fun x => key x == d) cs) l :=
      filterMapCongr (fun d hd => hskip d (List.mem_append_left _ hd))
    have hr : List.filterMap
        (fun d => List.find? (fun x => key x == d) (c :: cs)) r
        = List.filterMap (fun d => List.find? (fun x => key x == d) cs) r :=
      filterMapCongr (fun d hd => hskip d (List.mem_append_right _ hd))
    rw [hl, hr]
    refine List.Perm.trans List.perm_middle (List.Perm.cons c ?_)
    rw [← List.filterMap_append]
    refine ih (l ++ r) ?_ ?_ htail
    · exact List.nodup_append.mpr
        ⟨hndl, hndr, fun a ha hb => hdisj ha (List.mem_cons_of_mem _ hb)⟩
    · intro x hx
      rcases List.mem_append.mp (hmem x (List.mem_cons_of_mem _ hx)) with h | h
      · exact List.mem_append_left _ h
      · rcases List.mem_cons.mp h with he | h
        · exact absurd he.symm (hhead x hx)
        · exact List.mem_append_right _ h

theorem weekCheckins_mem {db : DB} {cid : Nat} {ws we : Int}
    {c : DailyCheckin} (hc : c ∈ weekCheckins db cid ws we) :
    c ∈ db.checkins ∧ c.client_id = cid ∧
      ws ≤ c.checkin_date ∧ c.checkin_date ≤ we := by
  have h1 : c ∈ db.checkins.filter (fun c => c.client_id == cid &&
      decide (ws ≤ c.checkin_date) && decide (c.checkin_date ≤ we)) :=
    ((sortBy_perm _ _).mem_iff).mp hc
  obtain ⟨h2, h3⟩ := List.mem_filter.mp h1
  simp only [Bool.and_eq_true, beq_iff_eq, decide_eq_true_eq] at h3
  exact ⟨h2, h3.1.1, h3.1.2, h3.2⟩

theorem weekCheckins_pairwise (db : DB) (cid : Nat) (ws we : Int)
    (hkey : db.checkins.Pairwise (fun a b =>
      a.client_id = b.client_id → a.checkin_date ≠ b.checkin_date)) :
    (weekCheckins db cid ws we).Pairwise
      (fun a b => a.checkin_date ≠ b.checkin_date) := by
  have hf : (db.checkins.filter (fun c => c.client_id == cid &&
      decide (ws ≤ c.checkin_date) && decide (c.checkin_date ≤ we))).Pairwise
      (fun a b => a.client_id = b.client_id → a.checkin_date ≠ b.checkin_date) :=
    List.Pairwise.sublist (List.filter_sublist _) hkey
  have hcid : ∀ a ∈ db.checkins.filter (fun c => c.client_id == cid &&
      decide (ws ≤ c.checkin_date) && decide (c.checkin_date ≤ we)),
      a.client_id = cid := by
    intro a ha
    have := (List.mem_filter.mp ha).2
    simp only [Bool.and_eq_true, beq_iff_eq, decide_eq_true_eq] at this
    exact this.1.1
  have hf2 := hf.imp_of_mem
    (fun {a b} ha hb hr => hr (by rw [hcid a ha, hcid b hb]))
  exact ((sortBy_perm _ _).pairwise_iff (fun h => h.symm)).mpr hf2

theorem dayLoop_filterMap_perm (ws : Int) (cs : List DailyCheckin)
    (extract : DailyCheckin → Option Int)
    (hdist : cs.Pairwise (fun a b => a.checkin_date ≠ b.checkin_date))
    (hmem : ∀ c ∈ cs, ws ≤ c.checkin_date ∧ c.checkin_date ≤ ws + 6) :
    ((List.range 7).filterMap (fun i =>
        (findCheckinOn cs (ws + Int.ofNat i)).bind extract)).Perm
      (cs.filterMap extract) := by
  have hcomp : (fun i : Nat =>
      (findCheckinOn cs (ws + Int.ofNat i)).bind extract)
      = ((fun d => (findCheckinOn cs d).bind extract) ∘
          (fun i : Nat => ws + Int.ofNat i)) := rfl
  rw [hcomp, ← List.filterMap_map, ← List.filterMap_filterMap]
  refine List.Perm.filterMap extract ?_
  have hinj : Function.Injective (fun i : Nat => ws + Int.ofNat i) := by
    intro a b h
    simpa using h
  have hnodup : ((List.range 7).map (fun i : Nat => ws + Int.ofNat i)).Nodup :=
    List.Nodup.map hinj (List.nodup_range 7)
  have hmem' : ∀ c ∈ cs, c.checkin_date ∈
      (List.range 7).map (fun i : Nat => ws + Int.ofNat i) := by
    intro c hc
    obtain ⟨h1, h2⟩ := hmem c hc
    refine List.mem_map.mpr ⟨(c.checkin_date - ws).toNat,
      List.mem_range.mpr (by omega), ?_⟩
    simp only [Int.ofNat_eq_coe]
    omega
  exact filterMap_find?_perm (fun c => c.checkin_date) cs _ hnodup hmem' hdist

theorem meanOf_perm {l₁ l₂ : List Int} (h : l₁.Perm l₂) :
    meanOf l₁ = meanOf l₂ := by
  rw [meanOf, meanOf, List.Perm.sum_eq (h.map (fun v : Int => (v : ℚ))),
    h.length_eq]

theorem truthy_eq_nonnull {cs : List DailyCheckin}
    (f : DailyCheckin → Option Int) (hz : ∀ c ∈ cs, f c ≠ some 0) :
    cs.filterMap (fun c => truthyInt (f c)) = cs.filterMap f := by
  apply filterMapCongr
  intro c hc
  cases hf : f c with
  | none => rfl
  | some v =>
    have hv : v ≠ 0 := fun e => hz c hc (by rw [hf, e])
    exact if_neg hv

/-- C3 counterexample: the client's own report divides the emotional and
activity averages by the total number of check-ins, not by the count of
non-null values: with one check-in rated 4 and one carrying no ratings,
the report's average lines show 2, while the mean over only the
non-null days is 4. -/
theorem client_mean_divides_by_total :
    client_summary [checkinRated, checkinUnrated]
      = [{ label := "Total Check-ins", amount := 2 },
         { label := "Average Emotional Rating", amount := 2 },
         { label := "Medication Adherence", amount := 0 },
         { label := "Average Activity Level", amount := 2 }] ∧
    specMeanEmotional [checkinRated, checkinUnrated] = 4 ∧
    specMeanActivity [checkinRated, checkinUnrated] = 4 := by
  refine ⟨?_, ?_, ?_⟩ <;>
    norm_num [client_summary, specMeanEmotional, specMeanActivity,
      checkinRated, checkinUnrated, truthyInt, List.filterMap_cons,
      List.filter_cons]

/-- C3 (amended): in the therapist Excel report the mean of each rated
field (emotional, activity) is computed over only the days where that
field is non-null — the divisor is the count of check-ins with a
non-null value for that field — given the table's `(client, date)`
uniqueness constraint and ratings on the 1–5 scale (never 0, which
Python truthiness would drop).  The client's own report instead divides
by the total number of check-ins (see the counterexample). -/
theorem report_mean_over_nonnull (db : DB) (cid : Nat) (ws : Int)
    (hkey : db.checkins.Pairwise (fun a b =>
      a.client_id = b.client_id → a.checkin_date ≠ b.checkin_date))
    (hz : ∀ c ∈ db.checkins,
      c.emotional_value ≠ some 0 ∧ c.activity_value ≠ some 0) :
    meanOf (emotionalValues ws (weekCheckins db cid ws (ws + 6)))
      = specMeanEmotional (weekCheckins db cid ws (ws + 6)) ∧
    meanOf (activityValues ws (weekCheckins db cid ws (ws + 6)))
      = specMeanActivity (weekCheckins db cid ws (ws + 6)) ∧
    ∀ e ∈ summaryData ws (weekCheckins db cid ws (ws + 6)),
      (e.metric = "Average Emotional Rating" →
        e.amount = specMeanEmotional (weekCheckins db cid ws (ws + 6))) ∧
      (e.metric = "Average Activity Level" →
        e.amount = specMeanActivity (weekCheckins db cid ws (ws + 6))) := by
  set cs := weekCheckins db cid ws (ws + 6) with hcs
  have hdist := weekCheckins_pairwise db cid ws (ws + 6) hkey
  have hmemd : ∀ c ∈ cs, ws ≤ c.checkin_date ∧ c.checkin_date ≤ ws + 6 :=
    fun c hc => (weekCheckins_mem hc).2.2
  have hzc : ∀ c ∈ cs,
      c.emotional_value ≠ some 0 ∧ c.activity_value ≠ some 0 :=
    fun c hc => hz c (weekCheckins_mem hc).1
  have he : meanOf (emotionalValues ws cs) = specMeanEmotional cs := by
    have pe : (emotionalValues ws cs).Perm
        (cs.filterMap (fun c => truthyInt c.emotional_value)) :=
      dayLoop_filterMap_perm ws cs
        (fun c => truthyInt c.emotional_value) hdist hmemd
    calc meanOf (emotionalValues ws cs)
        = meanOf (cs.filterMap (fun c => truthyInt c.emotional_value)) :=
          meanOf_perm pe
      _ = meanOf (cs.filterMap (fun c => c.emotional_value)) :=
          congrArg meanOf (truthy_eq_nonnull
            (fun c => c.emotional_value) (fun c hc => (hzc c hc).1))
      _ = specMeanEmotional cs := rfl
  have ha : meanOf (activityValues ws cs) = specMeanActivity cs := by
    have pa : (activityValues ws cs).Perm
        (cs.filterMap (fun c => truthyInt c.activity_value)) :=
      dayLoop_filterMap_perm ws cs
        (fun c => truthyInt c.activity_value) hdist hmemd
    calc meanOf (activityValues ws cs)
        = meanOf (cs.filterMap (fun c => truthyInt c.activity_value)) :=
          meanOf_perm pa
      _ = meanOf (cs.filterMap (fun c => c.activity_value)) :=
          congrArg meanOf (truthy_eq_nonnull
            (fun c => c.activity_value) (fun c hc => (hzc c hc).2))
      _ = specMeanActivity cs := rfl
  refine ⟨he, ha, ?_⟩
  intro e hmem'
  have hcompl : ∀ hm' : e = completionEntry ws cs,
      (e.metric = "Average Emotional Rating" →
        e.amount = specMeanEmotional cs) ∧
      (e.metric = "Average Activity Level" →
        e.amount = specMeanActivity cs) := by
    rintro rfl
    exact ⟨fun hm => by simp [completionEntry] at hm,
      fun hm => by simp [completionEntry] at hm⟩
  rw [summaryData] at hmem'
  split at hmem'
  · simp only [List.mem_append, List.mem_singleton] at hmem'
    rcases hmem' with ((hm1 | h1) | h2) | h3
    · exact hcompl hm1
    · rw [emotionalEntries] at h1
      split at h1
      · exact absurd h1 (List.not_mem_nil e)
      · rcases List.mem_singleton.mp h1 with rfl
        exact ⟨fun _ => he, fun hm => by simp at hm⟩
    · rw [medicationEntries] at h2
      split at h2
      · exact absurd h2 (List.not_mem_nil e)
      · rcases List.mem_singleton.mp h2 with rfl
        exact ⟨fun hm => by simp at hm, fun hm => by simp at hm⟩
    · rw [activityEntries] at h3
      split at h3
      · exact absurd h3 (List.not_mem_nil e)
      · rcases List.mem_singleton.mp h3 with rfl
        exact ⟨fun hm => by simp at hm, fun _ => ha⟩
  · exact hcompl (List.mem_singleton.mp hmem')

theorem report_mean_over_nonnull_witness :
    (dbC3.checkins.Pairwise (fun a b =>
        a.client_id = b.client_id → a.checkin_date ≠ b.checkin_date) ∧
      (∀ c ∈ dbC3.checkins,
        c.emotional_value ≠ some 0 ∧ c.activity_value ≠ some 0)) ∧
    (meanOf (emotionalValues 10 (weekCheckins dbC3 1 10 (10 + 6)))
        = specMeanEmotional (weekCheckins dbC3 1 10 (10 + 6)) ∧
      meanOf (activityValues 10 (weekCheckins dbC3 1 10 (10 + 6)))
        = specMeanActivity (weekCheckins dbC3 1 10 (10 + 6)) ∧
      ∀ e ∈ summaryData 10 (weekCheckins dbC3 1 10 (10 + 6)),
        (e.metric = "Average Emotional Rating" →
          e.amount = specMeanEmotional (weekCheckins dbC3 1 10 (10 + 6))) ∧
        (e.metric = "Average Activity Level" →
          e.amount = specMeanActivity (weekCheckins dbC3 1 10 (10 + 6)))) :=
  ⟨⟨by decide, by decide⟩,
    report_mean_over_nonnull dbC3 1 10 (by decide) (by decide)⟩

end SWB
